import Mathlib

/-!
Verification development for the FedMCP reference server.

The repository has two layers:

* `src/fedmcp/` — a small functional core: `artifact.py` with
  `sign_artifact` / `verify_artifact` (JWS over a JSON artifact, via the
  jwcrypto library) and `audit.py` with the `AuditAction` literal type and
  `emit_event`.
* `src/src/fedmcp_server.py` — a FastAPI orchestration layer with storage
  backends (`LocalStorage`, `S3Storage`), an in-memory audit log, and the
  `create_artifact` / `get_artifact` / `verify_artifact` / `get_audit_events`
  endpoints.  It imports an `Artifact` class, `LocalSigner`, `Verifier` and an
  `AuditAction` enum from a `fedmcp` core library whose source is not part of
  this tree; those parts are modelled from the specification and marked as
  such in their doc comments.

Modelling conventions:

* Python JSON values are the inductive `Json`.  The model identifies a JSON
  text with its parsed value: Python dicts preserve insertion order and can
  never hold duplicate keys, and `json.loads` is a left inverse of
  `json.dumps` on such values, so a payload travelling through
  dump/parse is represented by the `Json` value itself.  Where the actual
  bytes matter (the signed payload) the serialization function `pyDumps`
  below — a model of `json.dumps` with its default arguments — is applied
  explicitly.
* ES256 (ECDSA) signing via jwcrypto is modelled symbolically: a signature
  is the pair of the signing PEM and the signed message, public keys are
  derived injectively from private PEMs, and signature verification checks
  that the public key matches the signer and the message is unchanged.
  This is the standard idealized (EUF-CMA perfect) signature model; the
  nondeterminism of ECDSA nonces is irrelevant to the properties proved.
* JSON numbers are modelled as integers; float payloads are outside the
  model (no claim mentions them).
-/

namespace FedMCP

/-- A Python JSON value.  Objects are ordered association lists, matching
Python dict insertion order, which `json.dumps` preserves (default
`sort_keys=False`). -/
inductive Json : Type where
  | null : Json
  | bool : Bool → Json
  | num : Int → Json
  | str : String → Json
  | arr : List Json → Json
  | obj : List (String × Json) → Json

/-- String escaping of `json.dumps` restricted to quote and backslash; the
artifact fields in this development contain neither control characters nor
non-ASCII text, for which `json.dumps` would additionally escape. -/
def dumpStringBody (s : String) : String :=
  String.mk (s.data.flatMap fun c =>
    if c = '"' then ['\\', '"']
    else if c = '\\' then ['\\', '\\'] else [c])

/-- Serialization of a JSON string literal. -/
def dumpString (s : String) : String :=
  "\"" ++ dumpStringBody s ++ "\""

mutual
/-- Model of Python `json.dumps` with its DEFAULT arguments, exactly as
called in `sign_artifact` (`src/fedmcp/artifact.py` line 16): item
separator `", "` and key separator `": "` (both carrying a space), and
`sort_keys=False`, so object fields appear in dict insertion order. -/
def pyDumps : Json → String
  | .null => "null"
  | .bool true => "true"
  | .bool false => "false"
  | .num n => toString n
  | .str s => dumpString s
  | .arr xs => "[" ++ pyDumpsArr xs ++ "]"
  | .obj fs => "\x7b" ++ pyDumpsObj fs ++ "\x7d"

/-- Array elements joined by the default item separator `", "`. -/
def pyDumpsArr : List Json → String
  | [] => ""
  | [x] => pyDumps x
  | x :: y :: rest => pyDumps x ++ ", " ++ pyDumpsArr (y :: rest)

/-- Object entries `key: value` joined by the default item separator `", "`,
with the default key separator `": "`. -/
def pyDumpsObj : List (String × Json) → String
  | [] => ""
  | [(k, v)] => dumpString k ++ ": " ++ pyDumps v
  | (k, v) :: f :: rest => dumpString k ++ ": " ++ pyDumps v ++ ", " ++ pyDumpsObj (f :: rest)
end

/-- Python dict lookup `d.get(key)` on a JSON object: first binding wins
(irrelevant in practice — dicts cannot hold duplicate keys). Returns `none`
for a missing key or a non-object. -/
def jsonGet : Json → String → Option Json
  | .obj fs, key => (fs.find? (fun f => f.1 = key)).map (·.2)
  | _, _ => none

/-- Python `==` between a JSON-decoded value and a `str`: true exactly when
the value is that string (Python equality across types is `False`). -/
def jsonEqStr : Json → String → Bool
  | .str s, t => s = t
  | _, _ => false

/-! ### Idealized ES256 signature scheme (jwcrypto)

`jwk.JWK.from_pem` keys are identified with their PEM text.  `derivePub`
is the (injective) derivation of the public PEM from the private PEM. -/

/-- Idealized public-key derivation for an EC key pair: the public PEM is an
injective function of the private PEM.  "A key pair whose public half matches
the signing private key" is `pub = derivePub priv`. -/
def derivePub (pemPrivate : String) : String :=
  "PUBLIC KEY OF " ++ pemPrivate

/-- A detached ECDSA signature, idealized: it determines the signing key and
the exact message bytes signed. -/
structure Sig where
  signerPem : String
  message : String
  deriving DecidableEq

/-- Signing: `token.add_signature(key, ...)` over the payload bytes. -/
def mkSig (pemPrivate : String) (message : String) : Sig :=
  ⟨pemPrivate, message⟩

/-- Verification: `token.verify(key)` succeeds exactly when the supplied
public PEM is the public half of the signing key and the payload bytes are
the signed message. -/
def sigValid (pemPublic : String) (message : String) (s : Sig) : Bool :=
  derivePub s.signerPem = pemPublic && s.message = message

/-! ### JWS compact tokens (jwcrypto `JWS`) -/

/-- The protected header written by `sign_artifact`:
`{"alg": "ES256", "typ": "JWT", "kid": kid}`. -/
structure JwsHeader where
  alg : String
  typ : String
  kid : String
  deriving DecidableEq

/-- A structurally well-formed JWS compact token: protected header, payload
and signature.  The payload is carried as its parsed JSON value; the wire
bytes of the payload are `pyDumps payload`. -/
structure JwsToken where
  header : JwsHeader
  payload : Json
  signature : Sig

/-- A compact-serialized JWS as received on the wire: either it deserializes
to a well-formed token, or `token.deserialize` raises (the malformed case). -/
inductive CompactJws : Type where
  | wellFormed : JwsToken → CompactJws
  | malformed : String → CompactJws

/-! ### src/fedmcp/artifact.py -/

/-- The `Artifact` TypedDict of `src/fedmcp/artifact.py` lines 5-11. -/
structure Artifact where
  id : String
  type : String
  version : Int
  workspaceId : String
  createdAt : String
  jsonBody : Json

/-- The artifact as the Python dict passed around at runtime, with fields in
the declaration order of the TypedDict. -/
def artifactJson (a : Artifact) : Json :=
  .obj [("id", .str a.id), ("type", .str a.type), ("version", .num a.version),
        ("workspaceId", .str a.workspaceId), ("createdAt", .str a.createdAt),
        ("jsonBody", a.jsonBody)]

/-- Reading an `Artifact` back out of a decoded payload dict, field for
field. -/
def artifactOfJson (j : Json) : Option Artifact :=
  match jsonGet j "id", jsonGet j "type", jsonGet j "version",
        jsonGet j "workspaceId", jsonGet j "createdAt", jsonGet j "jsonBody" with
  | some (.str i), some (.str t), some (.num v), some (.str w), some (.str c), some b =>
      some ⟨i, t, v, w, c, b⟩
  | _, _, _, _, _, _ => none

/-- Errors raised by `verify_artifact` (`src/fedmcp/artifact.py` lines
20-28) and by the core library Verifier of the spec.  `str(e)` of each is
`errorMessage` below. -/
inductive VerifyError : Type where
  | malformedToken : VerifyError
  | unknownKey : VerifyError
  | algorithmMismatch : VerifyError
  | invalidSignature : VerifyError
  | malformedPayload : VerifyError
  | workspaceMismatch : VerifyError
  | missingWorkspaceField : VerifyError
  deriving DecidableEq

/-- The Python exception message `str(e)` of each verification failure.
`workspaceMismatch` is the literal `ValueError("workspaceId mismatch")` of
`src/fedmcp/artifact.py` line 27; the others model the messages of the
jwcrypto / core-library exception classes, which are pairwise distinct and
name the failed check. -/
def errorMessage : VerifyError → String
  | .malformedToken => "Invalid JWS Object"
  | .unknownKey => "unknown key id"
  | .algorithmMismatch => "algorithm mismatch"
  | .invalidSignature => "Verification failed"
  | .malformedPayload => "malformed payload"
  | .workspaceMismatch => "workspaceId mismatch"
  | .missingWorkspaceField => "KeyError: workspaceId"

/-- `sign_artifact` (`src/fedmcp/artifact.py` lines 13-18): serialize the
artifact dict with `json.dumps`, sign the resulting bytes with the private
key, and attach the protected header
`{"alg": "ES256", "typ": "JWT", "kid": kid}`. -/
def sign_artifact (art : Json) (pemPrivate : String) (kid : String := "workspace-root") :
    JwsToken :=
  { header := { alg := "ES256", typ := "JWT", kid := kid },
    payload := art,
    signature := mkSig pemPrivate (pyDumps art) }

/-- The exact payload bytes covered by the signature of a token. -/
def payloadBytes (t : JwsToken) : String :=
  pyDumps t.payload

/-- `verify_artifact` (`src/fedmcp/artifact.py` lines 20-28): deserialize
the compact token, check the signature against the caller-supplied public
PEM, decode the payload, and raise `ValueError("workspaceId mismatch")`
unless the payload dict's `workspaceId` equals the expected workspace.
The dict access `art["workspaceId"]` raises `KeyError` when absent. -/
def verify_artifact (w : CompactJws) (pemPublic : String) (expectedWorkspace : String) :
    Except VerifyError Json :=
  match w with
  | .malformed _ => .error .malformedToken
  | .wellFormed t =>
    if sigValid pemPublic (payloadBytes t) t.signature then
      match jsonGet t.payload "workspaceId" with
      | none => .error .missingWorkspaceField
      | some v =>
        if jsonEqStr v expectedWorkspace then .ok t.payload
        else .error .workspaceMismatch
    else .error .invalidSignature

/-! ### src/fedmcp/audit.py -/

/-- The `AuditAction` literal type of `src/fedmcp/audit.py` line 4:
`AuditAction = Literal["create", "update", "deploy", "delete"]` — the set
of action strings `emit_event` accepts. -/
def auditActionLiteral : List String := ["create", "update", "deploy", "delete"]

/-- The audit-action enumeration as the specification states it (section 3,
AuditEvent): the six values create, read, update, delete, verify, deploy. -/
def specAuditActions : List String :=
  ["create", "read", "update", "delete", "verify", "deploy"]

/-- The event dict built and printed by `emit_event`, fields in dict
insertion order (`src/fedmcp/audit.py` lines 7-15). -/
structure EmittedEvent where
  eventId : String
  artifactId : String
  action : String
  actor : String
  timestamp : String
  deriving DecidableEq

/-- `emit_event` (`src/fedmcp/audit.py` lines 6-16): builds the event dict
and prints it as JSON.  The generated uuid and the current timestamp are
explicit parameters of the model; the printed record is the returned
value. -/
def emit_event (artifact_id : String) (action : String) (actor : String)
    (eventId : String) (timestamp : String) : EmittedEvent :=
  { eventId := eventId, artifactId := artifact_id, action := action,
    actor := actor, timestamp := timestamp }

/-! ### Storage backends (src/src/fedmcp_server.py lines 98-165)

A backend medium (directory of files / S3 bucket) is an association list
from file or object key to the stored JSON document; `json.dump` on write
and `json.load` on read are the identity at the `Json` level. -/

/-- Lookup of the value stored at a key. -/
def mapGet {α : Type} (m : List (String × α)) (k : String) : Option α :=
  (m.find? (fun e => e.1 = k)).map (·.2)

/-- Writing a file or object: replaces any previous entry at the key. -/
def mapStore {α : Type} (m : List (String × α)) (k : String) (v : α) :
    List (String × α) :=
  (k, v) :: m.eraseP (fun e => e.1 = k)

/-- `LocalStorage` (lines 98-127): one `{artifact_id}.json` file per
artifact under the root directory. -/
structure LocalStorage where
  files : List (String × Json)

/-- `LocalStorage.store_artifact` (lines 105-108): `json.dump(data)` into
`{artifact_id}.json`, overwriting. -/
def LocalStorage.store_artifact (s : LocalStorage) (artifact_id : String) (data : Json) :
    LocalStorage :=
  { files := mapStore s.files (artifact_id ++ ".json") data }

/-- `LocalStorage.get_artifact` (lines 110-115): `None` when the file does
not exist, else `json.load` of it. -/
def LocalStorage.get_artifact (s : LocalStorage) (artifact_id : String) : Option Json :=
  mapGet s.files (artifact_id ++ ".json")

/-- `S3Storage` (lines 130-165): one object per artifact under the
`artifacts/` key prefix. -/
structure S3Storage where
  objects : List (String × Json)

/-- `S3Storage.store_artifact` (lines 137-143): `put_object` of
`json.dumps(data)` at key `artifacts/{artifact_id}.json`. -/
def S3Storage.store_artifact (s : S3Storage) (artifact_id : String) (data : Json) :
    S3Storage :=
  { objects := mapStore s.objects ("artifacts/" ++ artifact_id ++ ".json") data }

/-- `S3Storage.get_artifact` (lines 145-153): `None` on `NoSuchKey`, else
`json.loads` of the object body. -/
def S3Storage.get_artifact (s : S3Storage) (artifact_id : String) : Option Json :=
  mapGet s.objects ("artifacts/" ++ artifact_id ++ ".json")

/-! ### The fedmcp core library used by fedmcp_server.py

`fedmcp_server.py` imports `Artifact`, `ArtifactType`, `LocalSigner`,
`Verifier` and the `AuditAction` enum from a `fedmcp` core library that is
not part of this source tree (the `src/fedmcp/` module exposes none of
these names); they are modelled from the specification. -/

/-- Modelled from the spec: the core library `ArtifactType` enumeration of
recognized artifact kinds (section 3: "e.g., policy, prompt-template,
tool-manifest"). -/
def artifactTypes : List String := ["policy", "prompt-template", "tool-manifest"]

/-- Modelled from the spec: `Artifact.validate` (section 4.1) — `id`
present, `type` a recognized enum value, `version` a non-negative integer,
`workspaceId` present, `createdAt` a valid timestamp.  Presence is
non-emptiness; the UTC-timestamp shape check on `createdAt` is abstracted
to non-emptiness, as no claim depends on its details. -/
def Artifact.validateB (a : Artifact) : Bool :=
  a.id ≠ "" && a.type ∈ artifactTypes && decide (0 ≤ a.version) &&
    a.workspaceId ≠ "" && a.createdAt ≠ ""

/-- Modelled from the spec: the core library `LocalSigner` (section 4.2,
local variant) — holds private key material and a `kid`, and signs the
canonically serialized artifact, producing the compact token. -/
structure LocalSigner where
  pemPrivate : String
  kid : String

/-- Modelled from the spec: `LocalSigner.sign` produces the signed token
over the artifact dict, as `sign_artifact` does. -/
def LocalSigner.sign (s : LocalSigner) (a : Artifact) : JwsToken :=
  sign_artifact (artifactJson a) s.pemPrivate s.kid

/-- The compact serialization of a token: three dot-separated segments —
base64url of the header JSON, of the payload bytes, and of the signature.
Modelled injectively at the segment level. -/
def serializeCompact (t : JwsToken) : String :=
  "b64(" ++ t.header.alg ++ "," ++ t.header.typ ++ "," ++ t.header.kid ++ ")." ++
    "b64(" ++ payloadBytes t ++ ")." ++
    "b64(" ++ t.signature.signerPem ++ "," ++ t.signature.message ++ ")"

/-- Modelled from the spec: the core library `Verifier` (section 4.3) —
holds the keyring from `kid` to public key (all registered with algorithm
ES256). -/
structure Verifier where
  keyring : List (String × String)

/-- Modelled from the spec: `Verifier.add_public_key` registers a public
key under a `kid`. -/
def Verifier.add_public_key (v : Verifier) (kid : String) (pemPublic : String) : Verifier :=
  { keyring := mapStore v.keyring kid pemPublic }

/-- Modelled from the spec: `Verifier.verify` (section 4.3) — parse the
compact token (malformed structure raises `MalformedTokenError`); look the
header `kid` up in the keyring (missing raises `UnknownKeyError`); check
the declared algorithm against the registered one (mismatch raises
`AlgorithmMismatchError`); check the signature with the registered public
key (failure raises `InvalidSignatureError`); deserialize the payload to an
Artifact (structurally invalid raises `MalformedPayloadError`); when the
caller supplied an expected workspace, compare it against the artifact
`workspaceId` (mismatch raises `WorkspaceMismatchError`); only then return
the artifact. -/
def Verifier.verify (v : Verifier) (w : CompactJws)
    (expectedWorkspace : Option String := none) : Except VerifyError Artifact :=
  match w with
  | .malformed _ => .error .malformedToken
  | .wellFormed t =>
    match mapGet v.keyring t.header.kid with
    | none => .error .unknownKey
    | some pemPublic =>
      if t.header.alg ≠ "ES256" then .error .algorithmMismatch
      else if !(sigValid pemPublic (payloadBytes t) t.signature) then .error .invalidSignature
      else
        match artifactOfJson t.payload with
        | none => .error .malformedPayload
        | some a =>
          match expectedWorkspace with
          | some ws => if a.workspaceId = ws then .ok a else .error .workspaceMismatch
          | none => .ok a

/-! ### fedmcp_server.py orchestration -/

/-- Modelled from the spec: the core library `AuditAction` enum used by the
server (`AuditAction.CREATE` / `READ` / `VERIFY` at lines 268, 297, 319 of
`src/src/fedmcp_server.py`), with the six members of the spec enumeration. -/
inductive AuditAction : Type where
  | create | read | update | delete | verify | deploy
  deriving DecidableEq

/-- Modelled from the spec: the core library `AuditEvent` record as
appended to `audit_logs` by `log_audit_event`; the correlation fields are
strings (`eventId`, `timestamp` and serialization details are irrelevant to
the claims and omitted). -/
structure AuditEvent where
  action : AuditAction
  actor : String
  artifactId : Option String
  workspaceId : String
  metadata : List (String × String)
  deriving DecidableEq

/-- Python truthiness of an optional string: `None` and `""` are falsy. -/
def pyTruthy : Option String → Option String
  | some s => if s = "" then none else some s
  | none => none

/-- `log_audit_event` (lines 200-221): builds the event —
`artifactId = UUID(artifact_id) if artifact_id else None`,
`workspaceId = UUID(workspace_id) if workspace_id else` the nil UUID — and
appends it to `audit_logs`.  The constructed event is returned; the caller
appends it. -/
def log_audit_event (action : AuditAction) (actor : String)
    (artifact_id : Option String := none) (workspace_id : Option String := none)
    (metadata : List (String × String) := []) : AuditEvent :=
  { action := action, actor := actor,
    artifactId := pyTruthy artifact_id,
    workspaceId := (pyTruthy workspace_id).getD "00000000-0000-0000-0000-000000000000",
    metadata := metadata }

/-- The mutable state of the server process: the storage backend (the
default `LocalStorage` configuration) and the in-memory `audit_logs`
list. -/
structure ServerState where
  storage : LocalStorage
  audit_logs : List AuditEvent

/-- `CreateArtifactRequest` (lines 64-66). -/
structure CreateArtifactRequest where
  artifact : Json
  sign : Bool := true

/-- `JWSResponse` (lines 68-71). -/
structure JWSResponse where
  jws : String
  artifact_id : String
  workspace_id : String
  deriving DecidableEq

/-- An `HTTPException` response. -/
structure HttpError where
  status_code : Nat
  detail : String
  deriving DecidableEq

/-- `VerifyResponse` (lines 76-79). -/
structure VerifyResponse where
  valid : Bool
  artifact : Option Json := none
  error : Option String := none

/-- `create_artifact` (lines 233-281): parse the request dict into an
Artifact, validate it, sign it when requested, store
`{"artifact": ..., "jws": token}` (or without `jws` when unsigned) under
the artifact id, append one CREATE audit event, and answer with the token
and ids; any failure before persistence yields a 400 and no state
change. -/
def create_artifact (signer : LocalSigner) (req : CreateArtifactRequest)
    (current_user : String) (st : ServerState) :
    Except HttpError JWSResponse × ServerState :=
  match artifactOfJson req.artifact with
  | none => (.error ⟨400, "invalid artifact"⟩, st)
  | some artifact =>
    if !artifact.validateB then (.error ⟨400, "validation failed"⟩, st)
    else
      let jwsToken : Option String :=
        if req.sign then some (serializeCompact (signer.sign artifact)) else none
      let doc : Json :=
        match jwsToken with
        | some s => .obj [("artifact", artifactJson artifact), ("jws", .str s)]
        | none => .obj [("artifact", artifactJson artifact)]
      let st1 : ServerState := { st with storage := st.storage.store_artifact artifact.id doc }
      let ev := log_audit_event .create current_user (some artifact.id) (some artifact.workspaceId)
      let st2 : ServerState := { st1 with audit_logs := st1.audit_logs ++ [ev] }
      (.ok ⟨jwsToken.getD "", artifact.id, artifact.workspaceId⟩, st2)

/-- Python falsiness of a JSON value (`if not data:`): `None`, `False`,
`0`, `""`, `[]` and the empty dict are falsy. -/
def jsonFalsy : Json → Bool
  | .null => true
  | .bool b => !b
  | .num n => n = 0
  | .str s => s = ""
  | .arr xs => xs.isEmpty
  | .obj fs => fs.isEmpty

/-- The workspace correlation value read by `get_artifact` (line 300):
`data["artifact"].get("workspaceId")`.  Server-stored documents always
carry a string there; a non-string value would make the subsequent
`UUID()` call raise and is outside the model. -/
def docWorkspace (data : Json) : Option String :=
  match jsonGet data "artifact" with
  | some a =>
    match jsonGet a "workspaceId" with
    | some (.str w) => some w
    | _ => none
  | none => none

/-- `get_artifact` (lines 284-303): look the document up in storage, 404
when absent (or falsy), append one READ audit event, return the stored
document.  A stored document without an `artifact` key would raise
`KeyError` (an unhandled 500) before any audit event. -/
def get_artifact (artifact_id : String) (current_user : String) (st : ServerState) :
    Except HttpError Json × ServerState :=
  match st.storage.get_artifact artifact_id with
  | none => (.error ⟨404, "Artifact not found"⟩, st)
  | some data =>
    if jsonFalsy data then (.error ⟨404, "Artifact not found"⟩, st)
    else
      match jsonGet data "artifact" with
      | none => (.error ⟨500, "KeyError: artifact"⟩, st)
      | some _ =>
        let ev := log_audit_event .read current_user (some artifact_id) (docWorkspace data)
        (.ok data, { st with audit_logs := st.audit_logs ++ [ev] })

/-- `verify_artifact` endpoint (lines 306-333): `verifier.verify` on the
submitted compact token; on success append one VERIFY audit event and
answer `valid=True` with the decoded artifact; on any exception answer
`valid=False` with `error=str(e)` and touch nothing. -/
def verify_artifact_endpoint (verifier : Verifier) (req : CompactJws)
    (current_user : String) (st : ServerState) : VerifyResponse × ServerState :=
  match verifier.verify req none with
  | .error e => ({ valid := false, artifact := none, error := some (errorMessage e) }, st)
  | .ok a =>
    let ev := log_audit_event .verify current_user (some a.id) (some a.workspaceId)
    ({ valid := true, artifact := some (artifactJson a), error := none },
      { st with audit_logs := st.audit_logs ++ [ev] })

/-- Python tail slice `l[-limit:]` on a list, for an arbitrary integer
`limit`: a negative start index counts from the end clamped at 0, a
non-negative start index (the case `limit ≤ 0`) counts from the front —
in particular `l[-0:]` is the whole list. -/
def pyTailSlice {α : Type} (limit : Int) (l : List α) : List α :=
  if 0 < limit then l.drop ((l.length : Int) - limit).toNat
  else l.drop (-limit).toNat

/-- The `if artifact_id:` filter block of `get_audit_events` (lines
360-361): exact match on `artifactId`, skipped for a falsy parameter. -/
def filterByArtifact (artifact_id : Option String) (events : List AuditEvent) :
    List AuditEvent :=
  match pyTruthy artifact_id with
  | some a => events.filter (fun e => e.artifactId = some a)
  | none => events

/-- The `if workspace_id:` filter block of `get_audit_events` (lines
362-363): exact match on `workspaceId`, skipped for a falsy parameter. -/
def filterByWorkspace (workspace_id : Option String) (events : List AuditEvent) :
    List AuditEvent :=
  match pyTruthy workspace_id with
  | some w => events.filter (fun e => e.workspaceId = w)
  | none => events

/-- `get_audit_events` (lines 350-365): take the last `limit` events of
`audit_logs` (`events = audit_logs[-limit:]`, in insertion order), then
filter by exact `artifactId` / `workspaceId` match when those query
parameters are truthy. -/
def get_audit_events (artifact_id workspace_id : Option String) (limit : Int)
    (audit_logs : List AuditEvent) : List AuditEvent :=
  filterByWorkspace workspace_id (filterByArtifact artifact_id (pyTailSlice limit audit_logs))

/-- The audit query as the specification states it (section 4.5): filter
the whole log by exact, conjunctive `artifactId` / `workspaceId` match,
order most-recent-first, and bound the filtered result by `limit`. -/
def specAuditQuery (artifact_id workspace_id : Option String) (limit : Int)
    (audit_logs : List AuditEvent) : List AuditEvent :=
  ((audit_logs.filter (fun e =>
      (match artifact_id with | some a => e.artifactId = some a | none => true) &&
      (match workspace_id with | some w => e.workspaceId = w | none => true))).reverse).take
    limit.toNat

/-! ### Concrete demonstration values (used by witnesses and counterexamples)

These follow the scenario of section 8 of the spec:
`{id:"a1", type:"policy", version:1, workspaceId:"ws-1", jsonBody:{"rule":"x"}}`. -/

/-- The scenario artifact from section 8. -/
def demoArtifact : Artifact :=
  { id := "a1", type := "policy", version := 1, workspaceId := "ws-1",
    createdAt := "2024-01-01T00:00:00Z", jsonBody := .obj [("rule", .str "x")] }

/-- The scenario artifact dict with its fields in reverse order — the same
logical artifact (same field/value pairs) as `artifactJson demoArtifact`. -/
def reorderedArtifactJson : Json :=
  .obj [("jsonBody", .obj [("rule", .str "x")]), ("createdAt", .str "2024-01-01T00:00:00Z"),
        ("workspaceId", .str "ws-1"), ("version", .num 1), ("type", .str "policy"),
        ("id", .str "a1")]

/-- A demo signer holding the private PEM `PRIV` under kid `kid-1`. -/
def demoSigner : LocalSigner := { pemPrivate := "PRIV", kid := "kid-1" }

/-- The verifier whose keyring holds the demo signer's public key, as built
at server startup (`fedmcp_server.py` lines 186-187). -/
def demoVerifier : Verifier := (Verifier.mk []).add_public_key "kid-1" (derivePub "PRIV")

/-- A fresh server state: empty storage, empty audit log. -/
def demoState : ServerState := { storage := { files := [] }, audit_logs := [] }

/-- The create request of the scenario, with signing requested. -/
def demoCreateReq : CreateArtifactRequest := { artifact := artifactJson demoArtifact }

/-- A well-formed token signed by the demo signer: verifies against the
demo verifier. -/
def demoGoodToken : JwsToken := demoSigner.sign demoArtifact

/-- A well-formed token whose signature was produced by a different private
key: structurally fine, cryptographically invalid for the demo keyring. -/
def demoBadSigToken : JwsToken :=
  { header := { alg := "ES256", typ := "JWT", kid := "kid-1" },
    payload := artifactJson demoArtifact,
    signature := mkSig "SOMEONE-ELSE" (pyDumps (artifactJson demoArtifact)) }

/-- A well-formed token referencing a kid absent from the demo keyring. -/
def demoUnknownKidToken : JwsToken :=
  { header := { alg := "ES256", typ := "JWT", kid := "kid-404" },
    payload := artifactJson demoArtifact,
    signature := mkSig "PRIV" (pyDumps (artifactJson demoArtifact)) }

/-- Audit events for the query counterexample: two events about artifact
`x` around one about artifact `y`; `demoEvA` is the oldest, `demoEvC` the
most recent. -/
def demoEvA : AuditEvent :=
  { action := .create, actor := "u", artifactId := some "x", workspaceId := "ws-1",
    metadata := [] }

/-- The middle event, about artifact `y`. -/
def demoEvB : AuditEvent :=
  { action := .create, actor := "u", artifactId := some "y", workspaceId := "ws-1",
    metadata := [] }

/-- The most recent event, about artifact `x` again. -/
def demoEvC : AuditEvent :=
  { action := .verify, actor := "u", artifactId := some "x", workspaceId := "ws-1",
    metadata := [] }

/-- A three-event audit log in emission order. -/
def demoAuditLog : List AuditEvent := [demoEvA, demoEvB, demoEvC]

/-- The server state after a successful signed create of the demo
artifact: holds the stored document and one CREATE audit event. -/
def demoStoredState : ServerState :=
  (create_artifact demoSigner demoCreateReq "user:u" demoState).2

/-! ## Theorems -/

/-- C1: for every valid Artifact `a` and any key pair whose public half
matches the signing private key, verifying the token produced by signing
`a`, with the expected workspace equal to the workspaceId of `a`, returns
the artifact of `a` field-for-field. -/
theorem C1_sign_verify_roundtrip (a : Artifact) (pemPrivate kid : String) :
    verify_artifact (.wellFormed (sign_artifact (artifactJson a) pemPrivate kid))
      (derivePub pemPrivate) a.workspaceId = .ok (artifactJson a) ∧
    artifactOfJson (artifactJson a) = some a := by
  constructor
  · simp [verify_artifact, sign_artifact, sigValid, payloadBytes, mkSig, jsonGet,
      artifactJson, jsonEqStr, List.find?]
  · simp [artifactOfJson, jsonGet, artifactJson, List.find?]

/-- C2: verifying a token signed for workspace `W1` with the matching
public key but expected workspace `W2 ≠ W1` always fails with the
workspace-mismatch error and never returns the artifact, even though the
cryptographic signature check itself passes. -/
theorem C2_workspace_binding (a : Artifact) (pemPrivate kid w2 : String)
    (h : w2 ≠ a.workspaceId) :
    verify_artifact (.wellFormed (sign_artifact (artifactJson a) pemPrivate kid))
      (derivePub pemPrivate) w2 = .error .workspaceMismatch ∧
    sigValid (derivePub pemPrivate)
      (payloadBytes (sign_artifact (artifactJson a) pemPrivate kid))
      (sign_artifact (artifactJson a) pemPrivate kid).signature = true := by
  refine ⟨?_, ?_⟩
  · simp [verify_artifact, sign_artifact, sigValid, payloadBytes, mkSig, jsonGet,
      artifactJson, jsonEqStr, List.find?, Ne.symm h]
  · simp [sign_artifact, sigValid, payloadBytes, mkSig]

/-- Witness for C2 at the section 8 scenario: workspace `ws-2` against a
token bound to `ws-1`. -/
theorem C2_workspace_binding_witness :
    verify_artifact (.wellFormed (sign_artifact (artifactJson demoArtifact) "PRIV" "kid-1"))
      (derivePub "PRIV") "ws-2" = .error .workspaceMismatch ∧
    sigValid (derivePub "PRIV")
      (payloadBytes (sign_artifact (artifactJson demoArtifact) "PRIV" "kid-1"))
      (sign_artifact (artifactJson demoArtifact) "PRIV" "kid-1").signature = true :=
  C2_workspace_binding demoArtifact "PRIV" "kid-1" "ws-2" (by decide)

/-- C4: a structurally well-formed token whose header kid is absent from
the Verifier keyring always fails verification with the unknown-key error,
for any expected workspace; the header kid alone selects the public key. -/
theorem C4_unknown_kid (v : Verifier) (t : JwsToken) (expected : Option String)
    (h : mapGet v.keyring t.header.kid = none) :
    v.verify (.wellFormed t) expected = .error .unknownKey := by
  simp [Verifier.verify, h]

/-- Witness for C4: a token referencing `kid-404`, absent from the demo
keyring. -/
theorem C4_unknown_kid_witness :
    demoVerifier.verify (.wellFormed demoUnknownKidToken) none = .error .unknownKey :=
  C4_unknown_kid demoVerifier demoUnknownKidToken none (by decide)

/-- C8: for every artifact id and document and both storage backends,
storing the document and then getting the same id returns the stored
document, and a second store at the same id overwrites the first. -/
theorem C8_store_get_roundtrip (ls : LocalStorage) (s3 : S3Storage) (aid : String)
    (doc d1 d2 : Json) :
    ((ls.store_artifact aid doc).get_artifact aid = some doc ∧
      ((ls.store_artifact aid d1).store_artifact aid d2).get_artifact aid = some d2) ∧
    ((s3.store_artifact aid doc).get_artifact aid = some doc ∧
      ((s3.store_artifact aid d1).store_artifact aid d2).get_artifact aid = some d2) := by
  simp [LocalStorage.store_artifact, LocalStorage.get_artifact, S3Storage.store_artifact,
    S3Storage.get_artifact, mapStore, mapGet, List.find?]

/-- C3 counterexample: the reordered artifact dict is the same logical
artifact (it decodes field-for-field to the same Artifact, and it is not
field-order-identical to the original), yet the payload bytes signed by
`sign_artifact` differ, and the payload contains whitespace (the space of
the default `", "` / `": "` separators). -/
theorem C3_counterexample :
    artifactOfJson reorderedArtifactJson = some demoArtifact ∧
    artifactOfJson (artifactJson demoArtifact) = some demoArtifact ∧
    payloadBytes (sign_artifact (artifactJson demoArtifact) "PRIV" "kid-1") ≠
      payloadBytes (sign_artifact reorderedArtifactJson "PRIV" "kid-1") ∧
    (' ' ∈ (payloadBytes (sign_artifact (artifactJson demoArtifact) "PRIV" "kid-1")).data) := by
  refine ⟨rfl, rfl, by decide, by decide⟩

/-- C3 as amended: the payload bytes signed by `sign_artifact` are the
artifact dict serialized by `json.dumps` with its default arguments —
fields in dict insertion order (no canonical reordering) and a space after
every comma and colon — so byte-identical payloads are guaranteed only for
identical field order, not for all logically equal artifacts; and the
signature covers exactly those bytes. -/
theorem C3_payload_is_default_dumps (art : Json) (pemPrivate kid : String) :
    payloadBytes (sign_artifact art pemPrivate kid) = pyDumps art ∧
    (sign_artifact art pemPrivate kid).signature = mkSig pemPrivate (pyDumps art) ∧
    ∀ (a : Artifact), ' ' ∈ (pyDumps (artifactJson a)).data := by
  refine ⟨rfl, rfl, ?_⟩
  intro a
  simp [pyDumps, pyDumpsObj, artifactJson, dumpString, String.data_append]

/-- C5 counterexample: the `AuditAction` type of `src/fedmcp/audit.py`
admits neither `read` nor `verify`, so no event can be emitted for those
two actions of the claimed six-element enumeration. -/
theorem C5_counterexample :
    ¬ ("read" ∈ auditActionLiteral) ∧ ¬ ("verify" ∈ auditActionLiteral) := by
  decide

/-- C5 as amended: every `emit_event` action is one of the fixed
enumeration create, update, deploy, delete — a strict subset of the spec
six — and an event can be emitted for each of those four actions, carrying
that action and the given artifact id. -/
theorem C5_audit_actions (action : String) (h : action ∈ auditActionLiteral) :
    action ∈ specAuditActions ∧
    ∀ artifact_id actor eventId timestamp,
      (emit_event artifact_id action actor eventId timestamp).action = action ∧
      (emit_event artifact_id action actor eventId timestamp).artifactId = artifact_id := by
  refine ⟨?_, fun _ _ _ _ => ⟨rfl, rfl⟩⟩
  simp only [auditActionLiteral, List.mem_cons, List.not_mem_nil, or_false] at h
  rcases h with rfl | rfl | rfl | rfl <;> decide

/-- Witness for C5 as amended, at the `create` action. -/
theorem C5_audit_actions_witness :
    "create" ∈ specAuditActions ∧
    ∀ artifact_id actor eventId timestamp,
      (emit_event artifact_id "create" actor eventId timestamp).action = "create" ∧
      (emit_event artifact_id "create" actor eventId timestamp).artifactId = artifact_id :=
  C5_audit_actions "create" (by decide)

/-- C6 counterexample: on the three-event log, querying artifact `x` with
limit 2 returns one event although two match (the limit is applied to the
unfiltered log before filtering), and an unfiltered query with limit 2
returns the events oldest-first, not most-recent-first as the claim
mandates (`specAuditQuery` is the claim's described behaviour). -/
theorem C6_counterexample :
    get_audit_events (some "x") none 2 demoAuditLog = [demoEvC] ∧
    specAuditQuery (some "x") none 2 demoAuditLog = [demoEvC, demoEvA] ∧
    ([demoEvC] : List AuditEvent) ≠ [demoEvC, demoEvA] ∧
    get_audit_events none none 2 demoAuditLog = [demoEvB, demoEvC] ∧
    specAuditQuery none none 2 demoAuditLog = [demoEvC, demoEvB] := by
  refine ⟨by decide, by decide, by decide, by decide, by decide⟩

/-- The tail slice is a suffix, hence a sublist, of the log. -/
theorem pyTailSlice_sublist {α : Type} (limit : Int) (l : List α) :
    (pyTailSlice limit l).Sublist l := by
  unfold pyTailSlice
  split <;> exact List.drop_sublist _ _

/-- For a positive limit the tail slice holds at most `limit` elements. -/
theorem pyTailSlice_length_le {α : Type} (limit : Int) (l : List α) (h : 0 < limit) :
    (pyTailSlice limit l).length ≤ limit.toNat := by
  simp only [pyTailSlice, if_pos h, List.length_drop]
  omega

/-- The artifact filter stage only removes events, and keeps only exact
matches when the parameter is truthy. -/
theorem filterByArtifact_spec (artifact_id : Option String) (s : List AuditEvent) :
    (filterByArtifact artifact_id s).Sublist s ∧
    ∀ e ∈ filterByArtifact artifact_id s,
      ∀ a, pyTruthy artifact_id = some a → e.artifactId = some a := by
  unfold filterByArtifact
  cases h : pyTruthy artifact_id with
  | none => exact ⟨List.Sublist.refl s, fun e _ a ha => by simp [h] at ha⟩
  | some a =>
    refine ⟨List.filter_sublist s, fun e he a2 ha2 => ?_⟩
    have := (List.mem_filter.mp he).2
    simp only [h, Option.some.injEq] at ha2
    subst ha2
    simpa using this

/-- The workspace filter stage only removes events, and keeps only exact
matches when the parameter is truthy. -/
theorem filterByWorkspace_spec (workspace_id : Option String) (s : List AuditEvent) :
    (filterByWorkspace workspace_id s).Sublist s ∧
    ∀ e ∈ filterByWorkspace workspace_id s,
      ∀ w, pyTruthy workspace_id = some w → e.workspaceId = w := by
  unfold filterByWorkspace
  cases h : pyTruthy workspace_id with
  | none => exact ⟨List.Sublist.refl s, fun e _ w hw => by simp [h] at hw⟩
  | some w =>
    refine ⟨List.filter_sublist s, fun e he w2 hw2 => ?_⟩
    have := (List.mem_filter.mp he).2
    simp only [h, Option.some.injEq] at hw2
    subst hw2
    simpa using this

/-- C6 as amended: for a positive limit, the audit query returns a sublist
of the log (so the events appear in insertion order, oldest first, not
most-recent-first), holds at most `limit` events, and every returned event
exactly matches every truthy filter given — but the limit is applied to
the unfiltered log before filtering, and a non-positive limit disables the
bound (Python `[-limit:]` semantics). -/
theorem C6_audit_query (artifact_id workspace_id : Option String) (limit : Int)
    (logs : List AuditEvent) (h : 0 < limit) :
    (get_audit_events artifact_id workspace_id limit logs).Sublist logs ∧
    (get_audit_events artifact_id workspace_id limit logs).length ≤ limit.toNat ∧
    ∀ e ∈ get_audit_events artifact_id workspace_id limit logs,
      (∀ a, pyTruthy artifact_id = some a → e.artifactId = some a) ∧
      (∀ w, pyTruthy workspace_id = some w → e.workspaceId = w) := by
  unfold get_audit_events
  obtain ⟨hA1, hA2⟩ := filterByArtifact_spec artifact_id (pyTailSlice limit logs)
  obtain ⟨hW1, hW2⟩ :=
    filterByWorkspace_spec workspace_id (filterByArtifact artifact_id (pyTailSlice limit logs))
  refine ⟨(hW1.trans hA1).trans (pyTailSlice_sublist limit logs), ?_, fun e he => ?_⟩
  · exact le_trans ((hW1.trans hA1).length_le) (pyTailSlice_length_le limit logs h)
  · exact ⟨hA2 e (hW1.subset he), hW2 e he⟩

/-- Witness for C6 as amended, on the three-event demo log with limit 2. -/
theorem C6_audit_query_witness :
    (get_audit_events (some "x") none 2 demoAuditLog).Sublist demoAuditLog ∧
    (get_audit_events (some "x") none 2 demoAuditLog).length ≤ (2 : Int).toNat ∧
    ∀ e ∈ get_audit_events (some "x") none 2 demoAuditLog,
      (∀ a, pyTruthy (some "x") = some a → e.artifactId = some a) ∧
      (∀ w, pyTruthy none = some w → e.workspaceId = w) :=
  C6_audit_query (some "x") none 2 demoAuditLog (by decide)

/-- C7: every successful CreateArtifact, GetArtifact and VerifyToken call
appends exactly one audit event, whose action is respectively create, read
or verify and whose artifactId is the id of the artifact the call operated
on (the id is non-empty: validation enforces it at create, and the other
two take it as given). -/
theorem C7_audit_completeness (signer : LocalSigner) (verifier : Verifier)
    (req : CreateArtifactRequest) (artifact_id current_user : String) (w : CompactJws)
    (st : ServerState) :
    (∀ r st2, create_artifact signer req current_user st = (.ok r, st2) →
      ∃ ev, st2.audit_logs = st.audit_logs ++ [ev] ∧ ev.action = .create ∧
        ev.artifactId = some r.artifact_id) ∧
    (artifact_id ≠ "" → ∀ d st2, get_artifact artifact_id current_user st = (.ok d, st2) →
      ∃ ev, st2.audit_logs = st.audit_logs ++ [ev] ∧ ev.action = .read ∧
        ev.artifactId = some artifact_id) ∧
    (∀ a, verifier.verify w none = .ok a → a.id ≠ "" →
      ∃ ev, (verify_artifact_endpoint verifier w current_user st).2.audit_logs =
        st.audit_logs ++ [ev] ∧ ev.action = .verify ∧ ev.artifactId = some a.id) := by
  refine ⟨?_, ?_, ?_⟩
  · intro r st2 hEq
    unfold create_artifact at hEq
    split at hEq
    · simp at hEq
    · rename_i artifact hP
      split at hEq
      · simp at hEq
      · rename_i hv
        have hvb : artifact.validateB = true := by
          rcases Bool.eq_false_or_eq_true artifact.validateB with hb | hb
          · exact hb
          · exact absurd (by simp [hb]) hv
        have hid : artifact.id ≠ "" := by
          unfold Artifact.validateB at hvb
          simp only [Bool.and_eq_true, decide_eq_true_eq] at hvb
          exact hvb.1.1.1.1
        simp only [Prod.mk.injEq, Except.ok.injEq] at hEq
        obtain ⟨h1, h2⟩ := hEq
        refine ⟨log_audit_event .create current_user (some artifact.id)
          (some artifact.workspaceId), ?_, rfl, ?_⟩
        · rw [← h2]
        · rw [← h1]
          simp [log_audit_event, pyTruthy, hid]
  · intro hne d st2 hEq
    unfold get_artifact at hEq
    split at hEq
    · simp at hEq
    · rename_i data hG
      split at hEq
      · simp at hEq
      · split at hEq
        · simp at hEq
        · simp only [Prod.mk.injEq, Except.ok.injEq] at hEq
          obtain ⟨h1, h2⟩ := hEq
          refine ⟨log_audit_event .read current_user (some artifact_id) (docWorkspace data),
            ?_, rfl, ?_⟩
          · rw [← h2]
          · simp [log_audit_event, pyTruthy, hne]
  · intro a hV ha
    unfold verify_artifact_endpoint
    rw [hV]
    exact ⟨log_audit_event .verify current_user (some a.id) (some a.workspaceId),
      rfl, rfl, by simp [log_audit_event, pyTruthy, ha]⟩

/-- Witness for C7 at the section 8 scenario: a signed create of the demo
artifact, a get of `a1` from the resulting state, and a verify of the
signed token, each appending its one matching audit event. -/
theorem C7_audit_completeness_witness :
    (∃ ev, (create_artifact demoSigner demoCreateReq "user:u" demoState).2.audit_logs =
      demoState.audit_logs ++ [ev] ∧ ev.action = .create ∧ ev.artifactId = some "a1") ∧
    (∃ ev, (get_artifact "a1" "user:u" demoStoredState).2.audit_logs =
      demoStoredState.audit_logs ++ [ev] ∧ ev.action = .read ∧ ev.artifactId = some "a1") ∧
    (∃ ev, (verify_artifact_endpoint demoVerifier (.wellFormed demoGoodToken) "user:u"
        demoState).2.audit_logs =
      demoState.audit_logs ++ [ev] ∧ ev.action = .verify ∧ ev.artifactId = some "a1") := by
  refine ⟨?_, ?_, ?_⟩
  · exact (C7_audit_completeness demoSigner demoVerifier demoCreateReq "a1" "user:u"
      (.wellFormed demoGoodToken) demoState).1 _ _ rfl
  · exact (C7_audit_completeness demoSigner demoVerifier demoCreateReq "a1" "user:u"
      (.wellFormed demoGoodToken) demoStoredState).2.1 (by decide) _ _ rfl
  · exact (C7_audit_completeness demoSigner demoVerifier demoCreateReq "a1" "user:u"
      (.wellFormed demoGoodToken) demoState).2.2 demoArtifact rfl (by decide)

/-- C9 counterexample: two verification failures with different internal
causes — a malformed token and a cryptographically invalid signature —
produce VerifyToken responses whose error strings differ and name the
specific failed check, so the response reveals more than a coarse
invalid category. -/
theorem C9_counterexample :
    (verify_artifact_endpoint demoVerifier (.malformed "not-a-jws") "user:u" demoState).1.valid
      = false ∧
    (verify_artifact_endpoint demoVerifier (.wellFormed demoBadSigToken) "user:u"
      demoState).1.valid = false ∧
    (verify_artifact_endpoint demoVerifier (.malformed "not-a-jws") "user:u" demoState).1.error ≠
      (verify_artifact_endpoint demoVerifier (.wellFormed demoBadSigToken) "user:u"
        demoState).1.error ∧
    (verify_artifact_endpoint demoVerifier (.wellFormed demoBadSigToken) "user:u"
      demoState).1.error = some (errorMessage .invalidSignature) := by
  refine ⟨rfl, rfl, by decide, rfl⟩

/-- C9 as amended: on any verification failure the VerifyToken response is
`valid=false` with `error=str(e)` — the message of the specific underlying
exception, which is distinct for each failure cause — rather than a single
coarse category. -/
theorem C9_error_forwarding (verifier : Verifier) (w : CompactJws) (user : String)
    (st : ServerState) (e : VerifyError) (h : verifier.verify w none = .error e) :
    (verify_artifact_endpoint verifier w user st).1.valid = false ∧
    (verify_artifact_endpoint verifier w user st).1.error = some (errorMessage e) ∧
    ∀ e1 e2 : VerifyError, errorMessage e1 = errorMessage e2 → e1 = e2 := by
  refine ⟨by simp [verify_artifact_endpoint, h], by simp [verify_artifact_endpoint, h], ?_⟩
  intro e1 e2 he
  cases e1 <;> cases e2 <;> simp_all [errorMessage]

/-- Witness for C9 as amended, at a malformed token. -/
theorem C9_error_forwarding_witness :
    (verify_artifact_endpoint demoVerifier (.malformed "oops") "user:u" demoState).1.valid
      = false ∧
    (verify_artifact_endpoint demoVerifier (.malformed "oops") "user:u" demoState).1.error =
      some (errorMessage .malformedToken) ∧
    ∀ e1 e2 : VerifyError, errorMessage e1 = errorMessage e2 → e1 = e2 :=
  C9_error_forwarding demoVerifier (.malformed "oops") "user:u" demoState .malformedToken rfl

/-- C10: whenever verification fails, the VerifyToken entry point returns
a normal `valid=false` response carrying an error string — no exception
and no HTTP error — and the server state, in particular the audit log, is
unchanged: a verify audit event exists only after success. -/
theorem C10_no_audit_on_failed_verify (verifier : Verifier) (w : CompactJws)
    (current_user : String) (st : ServerState) (e : VerifyError)
    (h : verifier.verify w none = .error e) :
    (verify_artifact_endpoint verifier w current_user st).1.valid = false ∧
    (verify_artifact_endpoint verifier w current_user st).1.error = some (errorMessage e) ∧
    (verify_artifact_endpoint verifier w current_user st).2 = st := by
  refine ⟨?_, ?_, ?_⟩ <;> simp [verify_artifact_endpoint, h]

/-- Witness for C10, at a token with an unknown kid against the demo
keyring. -/
theorem C10_no_audit_on_failed_verify_witness :
    (verify_artifact_endpoint demoVerifier (.wellFormed demoUnknownKidToken) "user:u"
      demoState).1.valid = false ∧
    (verify_artifact_endpoint demoVerifier (.wellFormed demoUnknownKidToken) "user:u"
      demoState).1.error = some (errorMessage .unknownKey) ∧
    (verify_artifact_endpoint demoVerifier (.wellFormed demoUnknownKidToken) "user:u"
      demoState).2 = demoState :=
  C10_no_audit_on_failed_verify demoVerifier (.wellFormed demoUnknownKidToken) "user:u"
    demoState .unknownKey rfl

end FedMCP
